import Mathlib

/-!
Verification of the Total Health Conferencing core (pricing engine and
event matcher) against its natural-language specification.

The Python sources embedded here are `src/v2/config/pricing.py`,
`src/v2/core/pricing_calc.py` and `src/v2/services/event_matcher.py`.
Money amounts are modelled as exact rationals; Python dictionaries become
association lists in declaration order; Python `round` (round half to
even) is modelled explicitly.
-/

namespace Spec2Proof

/-! ## Pricing configuration (src/v2/config/pricing.py) -/

/-- Booth tier prices. The repository reads these from Streamlit secrets
with these fallback values (`get_booth_prices`); the secrets file is not
part of the repository, so the fallback table is the effective one. -/
def get_booth_prices : List (String × ℚ) :=
  [("standard_1d", 5000),
   ("standard_2d", 7500),
   ("platinum", 10000),
   ("best_of", 10000),
   ("premier", 15000)]

/-- One add-on entry: the `{"label": ..., "price": ...}` dictionaries of
`_get_fallback_add_ons_2025/2026`. -/
structure AddOnInfo where
  label : String
  price : ℚ
deriving DecidableEq

/-- 2025 add-ons table (`_get_fallback_add_ons_2025`). -/
def get_add_ons_2025 : List (String × AddOnInfo) :=
  [("program_ad_full", ⟨"Program Guide Full Page Ad", 2000⟩),
   ("charging_stations", ⟨"In-Person Charging Station", 2000⟩),
   ("wifi_sponsorship", ⟨"Wi-Fi Network Sponsorship", 3000⟩),
   ("platform_banner", ⟨"Platform Banner Ad", 2000⟩),
   ("email_banner", ⟨"Email Banner Ad", 2500⟩),
   ("registration_banner", ⟨"Registration Banner Ad", 2000⟩),
   ("networking_reception", ⟨"In-Person Networking Reception", 3500⟩),
   ("networking_activity", ⟨"Networking Activity / Excursion", 3500⟩),
   ("advisory_board", ⟨"Advisory Board (3-hour)", 30000⟩),
   ("non_cme_session", ⟨"Non-CME/CE Session (45 min)", 50000⟩)]

/-- 2026 add-ons table (`_get_fallback_add_ons_2026`); charging stations
price increases to 3000. -/
def get_add_ons_2026 : List (String × AddOnInfo) :=
  [("program_ad_full", ⟨"Program Guide Full Page Ad", 2000⟩),
   ("charging_stations", ⟨"In-Person Charging Station", 3000⟩),
   ("wifi_sponsorship", ⟨"Wi-Fi Network Sponsorship", 3000⟩),
   ("platform_banner", ⟨"Platform Banner Ad", 2000⟩),
   ("email_banner", ⟨"Email Banner Ad", 2500⟩),
   ("registration_banner", ⟨"Registration Banner Ad", 2000⟩),
   ("networking_reception", ⟨"In-Person Networking Reception", 3500⟩),
   ("networking_activity", ⟨"Networking Activity / Excursion", 3500⟩),
   ("advisory_board", ⟨"Advisory Board (3-hour)", 30000⟩),
   ("non_cme_session", ⟨"Non-CME/CE Session (45 min)", 50000⟩)]

/-- `get_add_ons_pricing(year)`: `if year == 2026: ... else: ...`. -/
def get_add_ons_pricing (year : ℤ) : List (String × AddOnInfo) :=
  if year = 2026 then get_add_ons_2026 else get_add_ons_2025

/-- `DISCOUNT_OPTIONS`: key ↦ (label, multiplier); the `custom` entry
carries `None` as its multiplier. -/
def DISCOUNT_OPTIONS : List (String × String × Option ℚ) :=
  [("none", ("No Discount (0%)", some 1)),
   ("minus_10", ("10% Discount", some (9/10))),
   ("minus_15", ("15% Discount", some (17/20))),
   ("minus_20", ("20% Discount", some (4/5))),
   ("custom", ("Custom Total Override", none))]

/-- `get_discount_multiplier`: `DISCOUNT_OPTIONS.get(key, {}).get("multiplier")`. -/
def get_discount_multiplier (discount_key : String) : Option ℚ :=
  (DISCOUNT_OPTIONS.lookup discount_key).bind (fun p => p.2)

/-- Python `x or default` on an optional float: `None` and `0.0` are falsy. -/
def pyOr (x : Option ℚ) (d : ℚ) : ℚ :=
  match x with
  | none => d
  | some v => if v = 0 then d else v

/-- Python 3 `round` to an integer: round half to even (banker's rounding). -/
def pyRound (q : ℚ) : ℤ :=
  let f : ℤ := ⌊q⌋
  let r : ℚ := q - (f : ℚ)
  if r < 1/2 then f
  else if 1/2 < r then f + 1
  else if f % 2 = 0 then f else f + 1

/-- `round_nearest_50(amount)`: `round(amount / 50.0) * 50.0`. -/
def round_nearest_50 (amount : ℚ) : ℚ :=
  ((pyRound (amount / 50) : ℤ) : ℚ) * 50

/-! ## Pricing engine (src/v2/core/pricing_calc.py) -/

/-- `PricingCalculation` result record (`core/models.py`). -/
structure PricingCalculation where
  booth_tier : String
  booth_price : ℚ
  add_on_keys : List String
  add_ons_total : ℚ
  subtotal : ℚ
  discount_key : String
  discount_multiplier : ℚ
  discount_amount : ℚ
  final_total : ℚ
  rounded_total : ℚ
deriving DecidableEq

/-- Booth price clause of `calculate_pricing`: the "(no booth)" sentinel
is 0, otherwise `booth_prices.get(booth_tier, 0.0)`. -/
def boothPriceOf (booth_prices : List (String × ℚ)) (booth_tier : String) : ℚ :=
  if booth_tier = "(no booth)" then 0
  else (booth_prices.lookup booth_tier).getD 0

/-- Add-ons clause of `calculate_pricing`:
`sum(pricing[key]["price"] for key in add_on_keys if key in pricing)`. -/
def addOnsTotalOf (add_ons_pricing : List (String × AddOnInfo)) (add_on_keys : List String) : ℚ :=
  (add_on_keys.filterMap (fun k => (add_ons_pricing.lookup k).map AddOnInfo.price)).sum

/-- Discount clause of `calculate_pricing`, returning
`(final_total, discount_multiplier, discount_amount)`.  The custom branch
runs when `discount_key == "custom" and custom_total is not None`;
otherwise the standard branch uses
`get_discount_multiplier(discount_key) or 1.0`. -/
def applyDiscount (subtotal : ℚ) (discount_key : String) (custom_total : Option ℚ) :
    ℚ × ℚ × ℚ :=
  match discount_key == "custom", custom_total with
  | true, some ct => (ct, 0, subtotal - ct)
  | _, _ =>
    let m := pyOr (get_discount_multiplier discount_key) 1
    (subtotal * m, m, subtotal - subtotal * m)

/-- `PricingEngine.calculate_pricing`. -/
def calculate_pricing (booth_tier : String) (add_on_keys : List String)
    (event_year : ℤ) (discount_key : String) (custom_total : Option ℚ) :
    PricingCalculation :=
  let booth_prices := get_booth_prices
  let add_ons_pricing := get_add_ons_pricing event_year
  let booth_price := boothPriceOf booth_prices booth_tier
  let add_ons_total := addOnsTotalOf add_ons_pricing add_on_keys
  let subtotal := booth_price + add_ons_total
  let d := applyDiscount subtotal discount_key custom_total
  ⟨booth_tier, booth_price, add_on_keys, add_ons_total, subtotal,
   discount_key, d.2.1, d.2.2, d.1, round_nearest_50 d.1⟩

/-! ## Event catalog (src/v2/config/events.py) -/

/-- The `Event` dataclass. -/
structure Event where
  meeting_name : String
  meeting_date_long : String
  venue : String
  city_state : String
  default_tier : String
  expected_attendance : Option ℕ
deriving DecidableEq

/-! ## String primitives

Python string operations modelled structurally over the character list of
a `String`, so that all of them compute by kernel reduction. -/

/-- `a` is a leading segment of `b` (character-exact). -/
def charsLeads : List Char → List Char → Bool
  | [], _ => true
  | _ :: _, [] => false
  | a :: as, b :: bs => a == b && charsLeads as bs

/-- Python substring containment `a in b` on character lists. -/
def charsWithin (a : List Char) : List Char → Bool
  | [] => charsLeads a []
  | b :: bs => charsLeads a (b :: bs) || charsWithin a bs

/-- Python `a in b` on strings (substring containment). -/
def strIn (a b : String) : Bool := charsWithin a.data b.data

/-- Python `str.lower()`. -/
def strLower (s : String) : String := String.mk (s.data.map Char.toLower)

/-- Python `str.strip()` with no argument: remove leading and trailing
whitespace. -/
def pyStrip (s : String) : String :=
  String.mk (((s.data.dropWhile Char.isWhitespace).reverse.dropWhile Char.isWhitespace).reverse)

/-- Fuel-driven worker for Python `str.replace`: scan left to right, and
at each position where the pattern `p` leads, emit `r` and resume after
the matched occurrence (the replacement text is not rescanned).  The fuel
starts at the length of the scanned list, which bounds the recursion for
every nonempty pattern (all patterns used here are nonempty). -/
def replaceFuel (p r : List Char) : Nat → List Char → List Char
  | _, [] => []
  | 0, s => s
  | fuel + 1, c :: cs =>
    if charsLeads p (c :: cs) then r ++ replaceFuel p r fuel ((c :: cs).drop p.length)
    else c :: replaceFuel p r fuel cs

/-- Python `s.replace(pat, rep)`: replace every non-overlapping occurrence
left to right. -/
def pyReplace (s pat rep : String) : String :=
  String.mk (replaceFuel pat.data rep.data s.data.length s.data)

/-- Worker for Python `str.split()` with no argument: split on runs of
whitespace, producing no empty pieces; `acc` holds the current word
reversed. -/
def splitAux : List Char → List Char → List (List Char)
  | [], acc => if acc.isEmpty then [] else [acc.reverse]
  | c :: cs, acc =>
    if c.isWhitespace then
      if acc.isEmpty then splitAux cs [] else acc.reverse :: splitAux cs []
    else splitAux cs (c :: acc)

/-- Python `s.split()` (no argument). -/
def pySplit (s : String) : List String := (splitAux s.data []).map String.mk

/-- Python `' '.join(ws)` on character-list words. -/
def joinSpace : List (List Char) → List Char
  | [] => []
  | [w] => w
  | w :: ws => w ++ ' ' :: joinSpace ws

/-! ## Event matcher (src/v2/services/event_matcher.py)

The matcher object holds the catalog `self.events`; it is modelled by
passing the catalog list explicitly. -/

/-- `EventMatcher._normalize_name`: lowercase, collapse en/em dashes to a
hyphen, rewrite the ASCO naming variants, collapse whitespace runs
(`' '.join(name.split())`). -/
def normalizeName (name : String) : String :=
  let n := strLower name
  let n := pyReplace n ("–") ("-")
  let n := pyReplace n ("—") ("-")
  let n := pyReplace n ("best of asco") ("asco direct")
  let n := pyReplace n ("best of") ("")
  let n := pyReplace n ("best") ("")
  String.mk (joinSpace (splitAux n.data []))

/-- The per-event test of `EventMatcher._exact_partial_match`, applied to
the already-lowercased query `ql`: either string contains the other. -/
def exactPred (ql : String) (e : Event) : Bool :=
  strIn ql (strLower e.meeting_name) || strIn (strLower e.meeting_name) ql

/-- `EventMatcher._exact_partial_match`: first event in stored order whose
lowercased name contains, or is contained in, the lowercased query. -/
def exactPartialMatch (events : List Event) (event_name : String) : Option Event :=
  events.find? (exactPred (strLower event_name))

/-- The per-event test of `EventMatcher._normalized_match`, applied to the
already-normalized query `nq`. -/
def normPred (nq : String) (e : Event) : Bool :=
  strIn nq (normalizeName e.meeting_name) || strIn (normalizeName e.meeting_name) nq

/-- `EventMatcher._normalized_match`: the substring-either-direction test
after `_normalize_name` on both sides. -/
def normalizedMatch (events : List Event) (event_name : String) : Option Event :=
  events.find? (normPred (normalizeName event_name))

/-- `set(s.lower().split())` as a list of words (deduplicated where the
set semantics matters, see `commonCnt`). -/
def wordList (s : String) : List String := pySplit (strLower s)

/-- `len(input_words & system_words)` where `iw` is the deduplicated input
word list: the number of distinct input words appearing among the system
words. -/
def commonCnt (iw sys : List String) : Nat :=
  (iw.filter (fun w => sys.contains w)).length

/-- Word-set intersection size between a query and a catalog name, as
computed by `EventMatcher._keyword_match` for one event. -/
def commonWords (q name : String) : Nat :=
  commonCnt ((wordList q).dedup) (wordList name)

/-- One iteration of the `_keyword_match` loop over state
`(best_match, max_common)`: update on `common_count >= 3 and
common_count > max_common`. -/
def keywordStep (iw : List String) (s : Option Event × ℕ) (e : Event) : Option Event × ℕ :=
  let c := commonCnt iw (wordList e.meeting_name)
  if 3 ≤ c ∧ s.2 < c then (some e, c) else s

/-- `EventMatcher._keyword_match`: best (first on ties) event sharing at
least 3 lowercased words with the query. -/
def keywordMatch (events : List Event) (event_name : String) : Option Event :=
  (events.foldl (keywordStep ((wordList event_name).dedup)) (none, 0)).1

/-- `EventMatcher.match_with_confidence`: guard on empty / whitespace-only
input, then the three stages in order, first success winning. -/
def matchWithConfidence (events : List Event) (event_name : String) :
    Option Event × String :=
  if event_name = "" ∨ pyStrip event_name = "" then (none, "none")
  else
    match exactPartialMatch events event_name with
    | some m => (some m, "exact")
    | none =>
      match normalizedMatch events event_name with
      | some m => (some m, "normalized")
      | none =>
        match keywordMatch events event_name with
        | some m => (some m, "keyword")
        | none => (none, "none")

/-- `EventMatcher.match_event`: same guard and stages, without the
confidence label. -/
def matchEvent (events : List Event) (event_name : String) : Option Event :=
  if event_name = "" ∨ pyStrip event_name = "" then none
  else
    match exactPartialMatch events event_name with
    | some m => some m
    | none =>
      match normalizedMatch events event_name with
      | some m => some m
      | none =>
        match keywordMatch events event_name with
        | some m => some m
        | none => none

/-! ## Helper lemmas: pricing -/

lemma applyDiscount_custom_some (s X : ℚ) :
    applyDiscount s ("custom") (some X) = (X, 0, s - X) := rfl

lemma applyDiscount_std (s : ℚ) (dk : String) (ct : Option ℚ)
    (h : (dk == "custom") = false) :
    applyDiscount s dk ct =
      (s * pyOr (get_discount_multiplier dk) 1, pyOr (get_discount_multiplier dk) 1,
       s - s * pyOr (get_discount_multiplier dk) 1) := by
  cases ct <;> simp [applyDiscount, h]

lemma applyDiscount_no_ct (s : ℚ) (dk : String) :
    applyDiscount s dk none =
      (s * pyOr (get_discount_multiplier dk) 1, pyOr (get_discount_multiplier dk) 1,
       s - s * pyOr (get_discount_multiplier dk) 1) := by
  cases hb : (dk == "custom") <;> simp [applyDiscount, hb]

lemma lookup_eq_none_of_not_mem {β : Type} (l : List (String × β)) (k : String)
    (h : k ∉ l.map Prod.fst) : l.lookup k = none := by
  induction l with
  | nil => rfl
  | cons a l ih =>
    obtain ⟨a1, a2⟩ := a
    simp only [List.map_cons, List.mem_cons, not_or] at h
    simp [List.lookup, beq_eq_false_iff_ne.mpr h.1, ih h.2]

lemma pyRound_intCast (n : ℤ) : pyRound ((n : ℚ)) = n := by
  unfold pyRound
  rw [Int.floor_intCast]
  norm_num

/-! ## Claim theorems: pricing -/

/-- Claim C1 (amended): `calculate_pricing` totals are invariant under
permutations of `add_on_keys` — equal multisets of keys give equal
totals — but a key listed twice contributes its price twice, so equal
*sets* of keys need not give equal totals (see the counterexample). -/
theorem calculate_pricing_perm_invariant (bt : String) (y : ℤ) (dk : String)
    (ct : Option ℚ) (ks₁ ks₂ : List String) (h : ks₁.Perm ks₂) :
    (calculate_pricing bt ks₁ y dk ct).add_ons_total
        = (calculate_pricing bt ks₂ y dk ct).add_ons_total
    ∧ (calculate_pricing bt ks₁ y dk ct).subtotal
        = (calculate_pricing bt ks₂ y dk ct).subtotal
    ∧ (calculate_pricing bt ks₁ y dk ct).final_total
        = (calculate_pricing bt ks₂ y dk ct).final_total
    ∧ (calculate_pricing bt ks₁ y dk ct).rounded_total
        = (calculate_pricing bt ks₂ y dk ct).rounded_total := by
  have ha : addOnsTotalOf (get_add_ons_pricing y) ks₁
      = addOnsTotalOf (get_add_ons_pricing y) ks₂ :=
    List.Perm.sum_eq (List.Perm.filterMap _ h)
  simp [calculate_pricing, ha]

/-- Claim C1, original reading refuted: the two key lists denote the same
*set* of add-on keys, yet the duplicated key is charged twice (4000
versus 2000), because the engine sums over the list, not over a set. -/
theorem calculate_pricing_dup_addon_counterexample :
    (["program_ad_full", "program_ad_full"] : List String).toFinset
        = (["program_ad_full"] : List String).toFinset
    ∧ (calculate_pricing ("(no booth)") (["program_ad_full", "program_ad_full"])
          2025 ("none") none).add_ons_total
        ≠ (calculate_pricing ("(no booth)") (["program_ad_full"])
          2025 ("none") none).add_ons_total := by
  constructor
  · decide
  · simp [calculate_pricing, addOnsTotalOf, get_add_ons_pricing,
      get_add_ons_2025, List.lookup]

/-- Witness for C1 (amended) at a concrete permutation. -/
theorem calculate_pricing_perm_invariant_witness :
    (calculate_pricing ("(no booth)") (["program_ad_full", "email_banner"])
        2025 ("none") none).add_ons_total
      = (calculate_pricing ("(no booth)") (["email_banner", "program_ad_full"])
        2025 ("none") none).add_ons_total
    ∧ (calculate_pricing ("(no booth)") (["program_ad_full", "email_banner"])
        2025 ("none") none).subtotal
      = (calculate_pricing ("(no booth)") (["email_banner", "program_ad_full"])
        2025 ("none") none).subtotal
    ∧ (calculate_pricing ("(no booth)") (["program_ad_full", "email_banner"])
        2025 ("none") none).final_total
      = (calculate_pricing ("(no booth)") (["email_banner", "program_ad_full"])
        2025 ("none") none).final_total
    ∧ (calculate_pricing ("(no booth)") (["program_ad_full", "email_banner"])
        2025 ("none") none).rounded_total
      = (calculate_pricing ("(no booth)") (["email_banner", "program_ad_full"])
        2025 ("none") none).rounded_total :=
  calculate_pricing_perm_invariant _ _ _ _ _ _ (List.Perm.swap _ _ _)

/-- Claim C2: for the four standard discount keys, the returned record
satisfies `subtotal = booth_price + add_ons_total`,
`final_total = subtotal * m` with the key's multiplier `m` exactly,
`discount_amount = subtotal - final_total`, and
`rounded_total = round_nearest_50 final_total`. -/
theorem calculate_pricing_standard_discounts (bt : String) (ks : List String)
    (y : ℤ) (ct : Option ℚ) (dk : String) (m : ℚ)
    (h : (dk, m) ∈ ([(("none" : String), (1 : ℚ)), ("minus_10", 9/10),
        ("minus_15", 17/20), ("minus_20", 4/5)] : List (String × ℚ))) :
    (calculate_pricing bt ks y dk ct).subtotal
        = (calculate_pricing bt ks y dk ct).booth_price
          + (calculate_pricing bt ks y dk ct).add_ons_total
    ∧ (calculate_pricing bt ks y dk ct).final_total
        = (calculate_pricing bt ks y dk ct).subtotal * m
    ∧ (calculate_pricing bt ks y dk ct).discount_amount
        = (calculate_pricing bt ks y dk ct).subtotal
          - (calculate_pricing bt ks y dk ct).final_total
    ∧ (calculate_pricing bt ks y dk ct).rounded_total
        = round_nearest_50 ((calculate_pricing bt ks y dk ct).final_total) := by
  fin_cases h <;>
  · simp only [calculate_pricing]
    rw [applyDiscount_std _ _ _ (by decide)]
    simp [get_discount_multiplier, DISCOUNT_OPTIONS, List.lookup, pyOr]

/-- Witness for C2 at the platinum booth with a 10% discount. -/
theorem calculate_pricing_standard_discounts_witness :
    (calculate_pricing ("platinum") [] 2025 ("minus_10") none).subtotal
        = (calculate_pricing ("platinum") [] 2025 ("minus_10") none).booth_price
          + (calculate_pricing ("platinum") [] 2025 ("minus_10") none).add_ons_total
    ∧ (calculate_pricing ("platinum") [] 2025 ("minus_10") none).final_total
        = (calculate_pricing ("platinum") [] 2025 ("minus_10") none).subtotal * (9/10)
    ∧ (calculate_pricing ("platinum") [] 2025 ("minus_10") none).discount_amount
        = (calculate_pricing ("platinum") [] 2025 ("minus_10") none).subtotal
          - (calculate_pricing ("platinum") [] 2025 ("minus_10") none).final_total
    ∧ (calculate_pricing ("platinum") [] 2025 ("minus_10") none).rounded_total
        = round_nearest_50 ((calculate_pricing ("platinum") [] 2025 ("minus_10") none).final_total) :=
  calculate_pricing_standard_discounts _ _ _ _ _ _ (by simp)

/-- Claim C3: with `discount_key = "custom"` and a supplied custom total
`X`, the unrounded final total is exactly `X` whatever the booth, add-ons
and year, and `discount_amount = subtotal - X`; the concrete conjunct
shows a negative discount amount (override above subtotal) is produced
without error. -/
theorem calculate_pricing_custom_override :
    (∀ (bt : String) (ks : List String) (y : ℤ) (X : ℚ),
      (calculate_pricing bt ks y ("custom") (some X)).final_total = X
      ∧ (calculate_pricing bt ks y ("custom") (some X)).discount_amount
          = (calculate_pricing bt ks y ("custom") (some X)).subtotal - X)
    ∧ (calculate_pricing ("(no booth)") [] 2025 ("custom") (some 100)).discount_amount < 0 := by
  constructor
  · intro bt ks y X
    simp only [calculate_pricing]
    rw [applyDiscount_custom_some]
    exact ⟨rfl, rfl⟩
  · simp [calculate_pricing, applyDiscount_custom_some, boothPriceOf, addOnsTotalOf]

/-- Claim C4: `discount_key = "custom"` without a custom total, or any
key outside the discount table, falls back to multiplier 1.0:
`final_total = subtotal`, `discount_multiplier = 1`,
`discount_amount = 0`, with no error. -/
theorem calculate_pricing_unknown_discount (bt : String) (ks : List String)
    (y : ℤ) (dk : String) (ct : Option ℚ)
    (h : (dk = "custom" ∧ ct = none)
      ∨ dk ∉ (["none", "minus_10", "minus_15", "minus_20", "custom"] : List String)) :
    (calculate_pricing bt ks y dk ct).final_total
        = (calculate_pricing bt ks y dk ct).subtotal
    ∧ (calculate_pricing bt ks y dk ct).discount_multiplier = 1
    ∧ (calculate_pricing bt ks y dk ct).discount_amount = 0 := by
  rcases h with ⟨h1, h2⟩ | h
  · subst h1; subst h2
    simp only [calculate_pricing]
    rw [applyDiscount_no_ct]
    simp [get_discount_multiplier, DISCOUNT_OPTIONS, List.lookup, pyOr]
  · simp only [List.mem_cons, not_or] at h
    obtain ⟨h1, h2, h3, h4, h5, -⟩ := h
    simp only [calculate_pricing]
    rw [applyDiscount_std _ _ _ (beq_eq_false_iff_ne.mpr h5)]
    simp [get_discount_multiplier, DISCOUNT_OPTIONS, List.lookup, pyOr,
      beq_eq_false_iff_ne.mpr h1, beq_eq_false_iff_ne.mpr h2,
      beq_eq_false_iff_ne.mpr h3, beq_eq_false_iff_ne.mpr h4,
      beq_eq_false_iff_ne.mpr h5]

/-- Witness for C4 at an out-of-table discount key. -/
theorem calculate_pricing_unknown_discount_witness :
    (calculate_pricing ("standard_2d") [] 2025 ("mystery") (some 42)).final_total
        = (calculate_pricing ("standard_2d") [] 2025 ("mystery") (some 42)).subtotal
    ∧ (calculate_pricing ("standard_2d") [] 2025 ("mystery") (some 42)).discount_multiplier = 1
    ∧ (calculate_pricing ("standard_2d") [] 2025 ("mystery") (some 42)).discount_amount = 0 :=
  calculate_pricing_unknown_discount _ _ _ _ _ (Or.inr (by decide))

/-- Claim C5: `round_nearest_50` rounds to the nearest multiple of 50
with round-half-to-even tie-breaking: every integer multiple of 50 is a
fixed point (in particular 7550), the midpoint 7525 rounds down to 7500
(150.5 rounds to the even 150), and 7537.50 rounds up to 7550. -/
theorem round_nearest_50_spec :
    (∀ n : ℤ, round_nearest_50 ((n : ℚ) * 50) = (n : ℚ) * 50)
    ∧ round_nearest_50 7550 = 7550
    ∧ round_nearest_50 7525 = 7500
    ∧ round_nearest_50 (15075 / 2) = 7550 := by
  have hfix : ∀ n : ℤ, round_nearest_50 ((n : ℚ) * 50) = (n : ℚ) * 50 := by
    intro n
    unfold round_nearest_50
    rw [mul_div_cancel_right₀ _ (by norm_num : (50 : ℚ) ≠ 0), pyRound_intCast]
  refine ⟨hfix, ?_, ?_, ?_⟩
  · have h := hfix 151
    norm_num at h
    exact h
  · unfold round_nearest_50 pyRound
    norm_num
  · unfold round_nearest_50 pyRound
    norm_num

/-- Claim C9: the engine is total and permissive: the "(no booth)"
sentinel and any booth tier outside the price table contribute 0; an
add-on key outside the year's table contributes nothing; and the 2026
add-on table is selected exactly for `event_year = 2026`, every other
integer year falling back to the 2025 table. -/
theorem calculate_pricing_total_permissive :
    (∀ (ks : List String) (y : ℤ) (dk : String) (ct : Option ℚ),
      (calculate_pricing ("(no booth)") ks y dk ct).booth_price = 0)
    ∧ (∀ (bt : String) (ks : List String) (y : ℤ) (dk : String) (ct : Option ℚ),
        bt ∉ get_booth_prices.map Prod.fst →
        (calculate_pricing bt ks y dk ct).booth_price = 0)
    ∧ (∀ (bt : String) (k : String) (ks : List String) (y : ℤ) (dk : String) (ct : Option ℚ),
        ((get_add_ons_pricing y).lookup k) = none →
        (calculate_pricing bt (k :: ks) y dk ct).add_ons_total
          = (calculate_pricing bt ks y dk ct).add_ons_total)
    ∧ get_add_ons_pricing 2026 = get_add_ons_2026
    ∧ (∀ y : ℤ, y ≠ 2026 → get_add_ons_pricing y = get_add_ons_2025) := by
  refine ⟨?_, ?_, ?_, rfl, ?_⟩
  · intro ks y dk ct
    simp [calculate_pricing, boothPriceOf]
  · intro bt ks y dk ct h
    simp only [calculate_pricing]
    by_cases hb : bt = "(no booth)"
    · simp [boothPriceOf, hb]
    · simp [boothPriceOf, hb, lookup_eq_none_of_not_mem _ _ h]
  · intro bt k ks y dk ct h
    simp [calculate_pricing, addOnsTotalOf, List.filterMap_cons, h]
  · intro y hy
    simp [get_add_ons_pricing, hy]

/-! ## Helper lemmas and sample catalog entries: matcher -/

lemma find?_first {α : Type} (p : α → Bool) (l₁ : List α) (e : α) (l₂ : List α)
    (he : p e = true) (h₁ : ∀ x ∈ l₁, p x = false) :
    (l₁ ++ e :: l₂).find? p = some e := by
  induction l₁ with
  | nil => exact List.find?_cons_of_pos _ he
  | cons a l ih =>
    rw [List.cons_append, List.find?_cons_of_neg _ (by simp [h₁ a (List.mem_cons_self a l)])]
    exact ih fun x hx => h₁ x (List.mem_cons_of_mem _ hx)

lemma matcher_guard_false {q : String} (hq : pyStrip q ≠ "") :
    ¬(q = "" ∨ pyStrip q = "") := by
  rintro (rfl | h2)
  · exact hq rfl
  · exact hq h2

lemma kwFold_frozen (iw : List String) (l : List Event) (s : Option Event × ℕ)
    (h : ∀ x ∈ l, ¬(3 ≤ commonCnt iw (wordList x.meeting_name)
          ∧ s.2 < commonCnt iw (wordList x.meeting_name))) :
    l.foldl (keywordStep iw) s = s := by
  induction l with
  | nil => rfl
  | cons a l ih =>
    rw [List.foldl_cons]
    have hs : keywordStep iw s a = s := by
      simp only [keywordStep]
      rw [if_neg (h a (List.mem_cons_self a l))]
    rw [hs]
    exact ih fun x hx => h x (List.mem_cons_of_mem _ hx)

lemma kwFold_snd_lt (iw : List String) (l : List Event) (n : ℕ)
    (s : Option Event × ℕ)
    (h : ∀ x ∈ l, commonCnt iw (wordList x.meeting_name) < n) (hs : s.2 < n) :
    (l.foldl (keywordStep iw) s).2 < n := by
  induction l generalizing s with
  | nil => simpa using hs
  | cons a l ih =>
    rw [List.foldl_cons]
    refine ih _ (fun x hx => h x (List.mem_cons_of_mem _ hx)) ?_
    by_cases hc : 3 ≤ commonCnt iw (wordList a.meeting_name)
        ∧ s.2 < commonCnt iw (wordList a.meeting_name)
    · simp only [keywordStep]
      rw [if_pos hc]
      exact h a (List.mem_cons_self a l)
    · simp only [keywordStep]
      rw [if_neg hc]
      exact hs

/-- Catalog entry used to exercise the matcher stages concretely. -/
def ascoDenver : Event :=
  ⟨"2026 ASCO Direct Denver", "June 27-28, 2026", "", "Denver, CO", "best_of", none⟩

/-- A second catalog entry that also matches the sample queries. -/
def ascoSeattle : Event :=
  ⟨"2026 ASCO Direct Seattle", "", "", "Seattle, WA", "best_of", none⟩

/-- Catalog entry sharing exactly three words with the sample keyword
queries. -/
def kwEvent : Event :=
  ⟨"Alpha Beta Gamma Qq", "", "", "", "standard_1d", none⟩

/-! ## Claim theorems: matcher -/

/-- Claim C6: the three stages run in fixed order and the first
successful stage decides result and confidence; stage 1 scans the catalog
in stored order and returns, with confidence "exact", the first event
whose lowercased full name contains or is contained in the lowercased
query — regardless of later entries or later stages. -/
theorem match_exact_first (events : List Event) (q : String) (e : Event)
    (l₁ l₂ : List Event) (hq : pyStrip q ≠ "")
    (hev : events = l₁ ++ e :: l₂)
    (he : exactPred (strLower q) e = true)
    (h₁ : ∀ x ∈ l₁, exactPred (strLower q) x = false) :
    matchWithConfidence events q = (some e, "exact") := by
  have hfind : exactPartialMatch events q = some e := by
    rw [hev]
    exact find?_first _ _ _ _ he h₁
  unfold matchWithConfidence
  rw [if_neg (matcher_guard_false hq), hfind]

/-- Witness for C6: with two catalog entries both matching the query, the
first one in stored order is returned with confidence "exact". -/
theorem match_exact_first_witness :
    matchWithConfidence [ascoDenver, ascoSeattle] ("ASCO Direct")
      = (some ascoDenver, "exact") :=
  match_exact_first _ _ ascoDenver [] [ascoSeattle] (by decide) rfl (by decide)
    (by simp)

/-- Claim C8: when stage 1 fails, stage 2 compares query and catalog
names after `_normalize_name` (lowercase, dash variants to hyphen,
"best of asco" rewritten to "asco direct" before "best of" and "best" are
deleted, whitespace runs collapsed) with the same substring-either-way
test, reporting confidence "normalized"; the witness instantiates this
with the catalog storing "2026 ASCO Direct Denver" and the query
"2026 Best of ASCO Denver". -/
theorem match_normalized_stage (events : List Event) (q : String) (e : Event)
    (l₁ l₂ : List Event) (hq : pyStrip q ≠ "")
    (h1 : exactPartialMatch events q = none)
    (hev : events = l₁ ++ e :: l₂)
    (he : normPred (normalizeName q) e = true)
    (h₂ : ∀ x ∈ l₁, normPred (normalizeName q) x = false) :
    matchWithConfidence events q = (some e, "normalized") := by
  have hfind : normalizedMatch events q = some e := by
    rw [hev]
    exact find?_first _ _ _ _ he h₂
  unfold matchWithConfidence
  rw [if_neg (matcher_guard_false hq), h1, hfind]

/-- Witness for C8: the "Best of ASCO"/"ASCO Direct" naming drift is
matched at stage 2. -/
theorem match_normalized_stage_witness :
    matchWithConfidence [ascoDenver] ("2026 Best of ASCO Denver")
      = (some ascoDenver, "normalized") :=
  match_normalized_stage _ _ ascoDenver [] [] (by decide) (by decide) rfl
    (by decide) (by simp)

/-- Claim C7: when stages 1 and 2 fail, the keyword stage counts, for
each catalog event, the distinct lowercased words shared with the query;
if every event shares fewer than 3 words the result is `(none, "none")`,
and otherwise the first event attaining the maximal count is returned
with confidence "keyword". -/
theorem match_keyword_stage (events : List Event) (q : String)
    (l₁ : List Event) (e : Event) (l₂ : List Event)
    (hq : pyStrip q ≠ "")
    (h1 : exactPartialMatch events q = none)
    (h2 : normalizedMatch events q = none) :
    ((∀ x ∈ events, commonWords q x.meeting_name < 3) →
        matchWithConfidence events q = (none, "none"))
    ∧ (events = l₁ ++ e :: l₂ →
       3 ≤ commonWords q e.meeting_name →
       (∀ x ∈ l₁, commonWords q x.meeting_name < commonWords q e.meeting_name) →
       (∀ x ∈ l₂, commonWords q x.meeting_name ≤ commonWords q e.meeting_name) →
       matchWithConfidence events q = (some e, "keyword")) := by
  constructor
  · intro hall
    have hkw : keywordMatch events q = none := by
      unfold keywordMatch
      rw [kwFold_frozen _ _ _ (fun x hx hcontra => by
        have := hall x hx
        unfold commonWords at this
        omega)]
    unfold matchWithConfidence
    rw [if_neg (matcher_guard_false hq), h1, h2, hkw]
  · intro hev h3 hlt hle
    unfold commonWords at h3 hlt hle
    have hkw : keywordMatch events q = some e := by
      unfold keywordMatch
      rw [hev, List.foldl_append, List.foldl_cons]
      have hsnd : (l₁.foldl (keywordStep ((wordList q).dedup)) (none, 0)).2
          < commonCnt ((wordList q).dedup) (wordList e.meeting_name) :=
        kwFold_snd_lt _ _ _ _ hlt (by omega)
      have hstep : keywordStep ((wordList q).dedup)
          (l₁.foldl (keywordStep ((wordList q).dedup)) (none, 0)) e
          = (some e, commonCnt ((wordList q).dedup) (wordList e.meeting_name)) := by
        simp only [keywordStep]
        rw [if_pos ⟨h3, hsnd⟩]
      rw [hstep]
      rw [kwFold_frozen _ _ _ (fun x hx hcontra => by
        have := hle x hx
        obtain ⟨-, hgt⟩ := hcontra
        simp only at hgt
        omega)]
    unfold matchWithConfidence
    rw [if_neg (matcher_guard_false hq), h1, h2, hkw]

/-- Witness for C7: a query sharing three words with the single catalog
entry is matched at the keyword stage, and a query sharing only two words
yields the no-match result. -/
theorem match_keyword_stage_witness :
    matchWithConfidence [kwEvent] ("alpha beta gamma zz")
        = (some kwEvent, "keyword")
    ∧ matchWithConfidence [kwEvent] ("alpha beta xx yy") = (none, "none") :=
  ⟨(match_keyword_stage [kwEvent] ("alpha beta gamma zz") [] kwEvent []
      (by decide) (by decide) (by decide)).2 rfl (by decide) (by simp) (by simp),
   (match_keyword_stage [kwEvent] ("alpha beta xx yy") [] kwEvent []
      (by decide) (by decide) (by decide)).1 (by decide)⟩

/-- Claim C10: an empty or whitespace-only query short-circuits: both
matcher entry points return the no-match result for every catalog, with
no catalog entry consulted and no failure possible. -/
theorem match_empty_query (events : List Event) :
    matchWithConfidence events "" = (none, "none")
    ∧ matchWithConfidence events ("   ") = (none, "none")
    ∧ matchEvent events "" = none
    ∧ matchEvent events ("   ") = none
    ∧ (∀ q : String, pyStrip q = "" →
        matchWithConfidence events q = (none, "none")
        ∧ matchEvent events q = none) := by
  have hgen : ∀ q : String, pyStrip q = "" →
      matchWithConfidence events q = (none, "none") ∧ matchEvent events q = none := by
    intro q hq
    constructor
    · unfold matchWithConfidence
      rw [if_pos (Or.inr hq)]
    · unfold matchEvent
      rw [if_pos (Or.inr hq)]
  exact ⟨(hgen _ (by decide)).1, (hgen _ (by decide)).1,
    (hgen _ (by decide)).2, (hgen _ (by decide)).2, hgen⟩

/-- Witness for C10 at a tab-and-space query. -/
theorem match_empty_query_witness :
    matchWithConfidence [ascoDenver] ("\t ") = (none, "none")
    ∧ matchEvent [ascoDenver] ("\t ") = none :=
  (match_empty_query [ascoDenver]).2.2.2.2 ("\t ") (by decide)

/-- Witness for C9 at concrete unknown keys and a non-2026 year. -/
theorem calculate_pricing_total_permissive_witness :
    (calculate_pricing ("mystery_booth") [] 2025 ("none") none).booth_price = 0
    ∧ (calculate_pricing ("standard_1d") (["mystery_addon"]) 2030 ("none") none).add_ons_total
        = (calculate_pricing ("standard_1d") [] 2030 ("none") none).add_ons_total
    ∧ get_add_ons_pricing 2030 = get_add_ons_2025 :=
  ⟨calculate_pricing_total_permissive.2.1 _ _ _ _ _ (by decide),
   calculate_pricing_total_permissive.2.2.1 _ _ _ _ _ _ (by decide),
   calculate_pricing_total_permissive.2.2.2.2 _ (by decide)⟩

end Spec2Proof
